import Mathlib

/-!
Shallow embedding of the two MCP servers implemented in
`src/mysql/index.ts`: a MySQL resource/tool server (query tool,
table-schema resources) and a Google Drive / Google Sheets resource/tool
server (search, list_sheets, read_sheet, edit_sheet, format_sheet tools).
Pure helpers are translated as Lean functions; stateful handlers are
translated as functions over explicit backend-call outcomes
(`Except`-valued parameters), returning the handler outcome (`.error`
models a thrown exception) and, where relevant, an explicit event trace.
-/

/- ===================== Definitions ===================== -/

/-- Tool call result: the rendered text content and the `isError` flag of
the `ToolCallResult` envelope. -/
structure ToolResult where
  text : String
  isError : Bool
deriving DecidableEq

/-- Boolean test for whether an `Except` computation finished without a
thrown exception. -/
def exceptIsOk : Except ε α → Bool
  | .ok _ => true
  | .error _ => false

/- ----- MySQL server: the `query` tool (read-only query guard) ----- -/

/-- Observable actions the `query` tool handler performs on the pool
connection it acquires. -/
inductive DbEvent
  | getConn
  | beginTx
  | runQuery
  | rollback
  | warnRollback
  | release
deriving DecidableEq

/-- Embedding of the `query` tool handler (mysql server, lines 105-129 of
the source): acquire a connection, `try` begin-transaction then run the
query and return its rows, `catch` rethrows the error unchanged, and the
`finally` block attempts a rollback (a rollback failure is logged as a
warning and swallowed) and then releases the connection.  `beginR`,
`queryR` and `rollbackR` are the outcomes of the backend calls
`connection.beginTransaction()`, `connection.query(sql)` and
`connection.rollback()`.  Returns the handler outcome together with the
ordered trace of connection events. -/
def queryToolHandler (beginR : Except String Unit) (queryR : Except String String)
    (rollbackR : Except String Unit) : Except String ToolResult × List DbEvent :=
  let body : Except String ToolResult × List DbEvent :=
    match beginR with
    | .error e => (.error e, [.beginTx])
    | .ok _ =>
      match queryR with
      | .error e => (.error e, [.beginTx, .runQuery])
      | .ok rows => (.ok { text := rows, isError := false }, [.beginTx, .runQuery])
  let cleanup : List DbEvent :=
    match rollbackR with
    | .ok _ => [.rollback, .release]
    | .error _ => [.rollback, .warnRollback, .release]
  (body.1, .getConn :: body.2 ++ cleanup)

/- ----- MySQL server: resource URI codec ----- -/

/-- The view literal `SCHEMA_PATH = "schema"` of the mysql server. -/
def SCHEMA_PATH : List Char := "schema".data

/-- Embedding of the resource-URI pathname built by the mysql
ListResources handler: `new URL(`...tableName/schema`, resourceBaseUrl)`.
Against the server's base URL the resolved pathname is
`/<tableName>/schema`; the pathname is modelled as its character list. -/
def mysqlEncodePath (tableName : List Char) : List Char :=
  '/' :: (tableName ++ '/' :: SCHEMA_PATH)

/-- Embedding of the mysql ReadResource URI parsing (lines 56-65):
`pathComponents = pathname.split("/")`, `schema = pop()`,
`tableName = pop()`, failing with "Invalid resource URI" when the popped
trailing segment is not `SCHEMA_PATH`. -/
def mysqlDecodePath (path : List Char) : Except String (List Char × List Char) :=
  let comps := path.splitOn '/'
  let schema := comps.getLastD []
  let tableName := comps.dropLast.getLastD []
  if schema = SCHEMA_PATH then .ok (tableName, schema)
  else .error "Invalid resource URI"

/- ----- Column-letter arithmetic ----- -/

/-- Embedding of `columnLetterToNumber` (lines 1059-1065):
`result = result * 26 + (column.charCodeAt(i) - 64)` over the characters,
then `result - 1` for the 0-based index. -/
def columnLetterToNumber (column : List Char) : Int :=
  (column.foldl (fun result c => result * 26 + ((c.toNat : Int) - 64)) 0) - 1

/-- Specification-side reading of a letter column: the base-26 positional
number with digit values 1..26 (`A` = 1, .., `Z` = 26) read left to
right, each digit weighted by the power of 26 of its position. -/
def specColumnValue : List Char → Int
  | [] => 0
  | c :: rest => ((c.toNat : Int) - 64) * (26 : Int) ^ rest.length + specColumnValue rest

/-- Specification-side 0-based column index of a letter column. -/
def specColumnIndex (l : List Char) : Int := specColumnValue l - 1

/-- Embedding of the letter produced in the read_sheet range resolution
(line 707): `String.fromCharCode(64 + columnCount)`; the column with
0-based index `i` is the `(i+1)`-st column, so the conversion from index
`i` is the single character of code `64 + (i + 1)`. -/
def readSheetIndexToLetter (i : Nat) : List Char :=
  [Char.ofNat (64 + (i + 1))]

/- ----- Google Sheets metadata and the read_sheet range resolver ----- -/

/-- Grid dimensions of one sheet, as reported by the spreadsheet
metadata (`sheets.properties.gridProperties`); fields may be absent. -/
structure GridProperties where
  rowCount : Option Nat
  columnCount : Option Nat
deriving DecidableEq

/-- Properties of one sheet (`sheets.properties`). -/
structure SheetProperties where
  title : Option String
  gridProperties : Option GridProperties
deriving DecidableEq

/-- JavaScript `x || d` on an optional numeric field: `undefined` and
`0` are falsy and fall back to the default. -/
def jsOrNat : Option Nat → Nat → Nat
  | none, d => d
  | some n, d => if n = 0 then d else n

/-- JavaScript truthiness of an optional string argument: `undefined`
and the empty string are falsy. -/
def strOpt : Option String → Option String
  | none => none
  | some s => if s = "" then none else some s

/-- Embedding of the read_sheet range resolution (lines 689-710): when a
(truthy) sheet name is given without a range, the sheet is looked up by
title in the spreadsheet metadata (a miss throws) and the range
`sheetName!A1:<fromCharCode(64 + (columnCount || 26))><rowCount || 1000>`
is built; otherwise `actualRange || sheetName || 'Sheet1!A1:Z1000'`
selects the explicit range verbatim or the hard-coded default. -/
def resolveReadRange (sheetName rangeInput : Option String)
    (sheetsMeta : List SheetProperties) : Except String String :=
  match strOpt sheetName, strOpt rangeInput with
  | some name, none =>
    match sheetsMeta.find? (fun s => s.title = some name) with
    | none => .error ("Không tìm thấy sheet có tên \"" ++ name ++ "\"")
    | some sheet =>
      let cc := jsOrNat (sheet.gridProperties.bind (fun g => g.columnCount)) 26
      let rc := jsOrNat (sheet.gridProperties.bind (fun g => g.rowCount)) 1000
      .ok (name ++ "!A1:" ++ (Char.ofNat (64 + cc)).toString ++ toString rc)
  | _, some r => .ok r
  | none, none => .ok "Sheet1!A1:Z1000"

/- ----- Format translator: hex colors, native format, field mask ----- -/

/-- An RGB color with 0..255 integer channels, as produced by
`hexToRgb`. -/
structure Rgb255 where
  r : Nat
  g : Nat
  b : Nat
deriving DecidableEq

/-- A character matched by the regex class `[a-f\d]` under the `i`
flag. -/
def isHexDigitChar (c : Char) : Bool :=
  c.isDigit || ('a' ≤ c && c ≤ 'f') || ('A' ≤ c && c ≤ 'F')

/-- Numeric value of one hex digit character. -/
def hexDigitVal (c : Char) : Nat :=
  if c.isDigit then c.toNat - 48
  else if 'a' ≤ c && c ≤ 'f' then c.toNat - 87
  else c.toNat - 55

/-- Value of a two-hex-digit group, as `parseInt(group, 16)`. -/
def hexPairVal (a b : Char) : Nat := 16 * hexDigitVal a + hexDigitVal b

/-- Match of exactly three two-hex-digit groups
(`([a-f\d]{2})([a-f\d]{2})([a-f\d]{2})$` under `i`). -/
def hexToRgbAux : List Char → Option Rgb255
  | [a, b, c, d, e, f] =>
    if isHexDigitChar a && isHexDigitChar b && isHexDigitChar c &&
       isHexDigitChar d && isHexDigitChar e && isHexDigitChar f then
      some ⟨hexPairVal a b, hexPairVal c d, hexPairVal e f⟩
    else none
  | _ => none

/-- Full match of `/^#?([a-f\d]{2})([a-f\d]{2})([a-f\d]{2})$/i`: an
optional leading `#` (which is never a hex digit, so consuming it when
present loses no match) followed by six hex digits. -/
def hexMatch (l : List Char) : Option Rgb255 :=
  match l with
  | '#' :: rest => hexToRgbAux rest
  | _ => hexToRgbAux l

/-- Whether a color string is a well-formed hex color for the source's
regex. -/
def wellFormedHex (s : String) : Bool := (hexMatch s.data).isSome

/-- Embedding of `hexToRgb` (lines 1068-1075): the regex match when it
succeeds, and the fallback `{ r: 0, g: 0, b: 0 }` when it does not. -/
def hexToRgb (s : String) : Rgb255 := (hexMatch s.data).getD ⟨0, 0, 0⟩

/-- A backend color object with normalized 0..1 channels (rationals
stand in for the floating-point channel values, which here are exact
multiples of 1/255). -/
structure ColorRgba where
  red : ℚ
  green : ℚ
  blue : ℚ
  alpha : ℚ
deriving DecidableEq

/-- Channel normalization `{ red: r/255, green: g/255, blue: b/255,
alpha: 1 }` applied to a `hexToRgb` result. -/
def toColorRgba (c : Rgb255) : ColorRgba :=
  ⟨(c.r : ℚ) / 255, (c.g : ℚ) / 255, (c.b : ℚ) / 255, 1⟩

/-- The caller-facing `formatting` argument of the format_sheet tool;
every attribute is optional. -/
structure FormatSpec where
  backgroundColor : Option String
  textColor : Option String
  fontSize : Option Int
  bold : Option Bool
  italic : Option Bool
  horizontalAlignment : Option String
  verticalAlignment : Option String
deriving DecidableEq

/-- JavaScript truthiness of an optional string. -/
def truthyS : Option String → Bool
  | none => false
  | some s => !(s == "")

/-- JavaScript truthiness of an optional number (`0` is falsy). -/
def truthyZ : Option Int → Bool
  | none => false
  | some n => !(n == 0)

/-- The backend-native `textFormat` sub-object, accumulated by the
spread updates of the format_sheet handler. -/
structure TextFormat where
  foregroundColor : Option ColorRgba
  fontSize : Option Int
  bold : Option Bool
  italic : Option Bool
deriving DecidableEq

/-- The backend-native cell format object (`userFormatting`) assembled
by the format_sheet handler; each top-level key is present exactly when
some caller attribute contributed to it. -/
structure CellFormatNative where
  backgroundColor : Option ColorRgba
  textFormat : Option TextFormat
  horizontalAlignment : Option String
  verticalAlignment : Option String
deriving DecidableEq

/-- Embedding of the `userFormatting` assembly (lines 940-992):
`backgroundColor` is set from the hex color when the attribute is
truthy; `textFormat` is created (and updated in place by the spreads)
when any of textColor, fontSize (truthy), bold or italic (presence
check `!== undefined`) is supplied; the two alignments are set,
upper-cased, when truthy. -/
def buildUserFormatting (f : FormatSpec) : CellFormatNative :=
  let bg := if truthyS f.backgroundColor then
      some (toColorRgba (hexToRgb (f.backgroundColor.getD ""))) else none
  let fg := if truthyS f.textColor then
      some (toColorRgba (hexToRgb (f.textColor.getD ""))) else none
  let fs := if truthyZ f.fontSize then f.fontSize else none
  let tf : Option TextFormat :=
    if truthyS f.textColor || truthyZ f.fontSize || f.bold.isSome || f.italic.isSome then
      some ⟨fg, fs, f.bold, f.italic⟩
    else none
  let ha := if truthyS f.horizontalAlignment then
      some ((f.horizontalAlignment.getD "").toUpper) else none
  let va := if truthyS f.verticalAlignment then
      some ((f.verticalAlignment.getD "").toUpper) else none
  ⟨bg, tf, ha, va⟩

/-- The `Object.keys(userFormatting)` list, in JavaScript insertion
order: `backgroundColor` is assigned first, `textFormat` next
(whichever of the four text attributes first creates it; later spread
assignments update the existing key in place), then the alignments. -/
def formatObjectKeys (o : CellFormatNative) : List String :=
  (if o.backgroundColor.isSome then ["backgroundColor"] else []) ++
  (if o.textFormat.isSome then ["textFormat"] else []) ++
  (if o.horizontalAlignment.isSome then ["horizontalAlignment"] else []) ++
  (if o.verticalAlignment.isSome then ["verticalAlignment"] else [])

/-- Embedding of the field mask built at line 1007:
`'userEnteredFormat(' + Object.keys(userFormatting).join(',') + ')'`. -/
def fieldsMask (o : CellFormatNative) : String :=
  "userEnteredFormat(" ++ String.intercalate "," (formatObjectKeys o) ++ ")"

/- ----- Access verifier ----- -/

/-- Sharing permission types reported by the permissions list. -/
inductive PermissionType
  | anyone
  | domain
  | user
  | group
deriving DecidableEq

/-- The data fetched about a file: its MIME type, the capability flags
`canReadRevisions` and `canEdit`, and its permission entries' types. -/
structure DriveFileData where
  mimeType : Option String
  canReadRevisions : Option Bool
  canEdit : Option Bool
  permissions : List PermissionType
deriving DecidableEq

/-- The edit-denied diagnostic thrown by `verifyFileAccess` (lines
540-547), which embeds the current identity's email. -/
def editDeniedMsg (email : String) : String :=
  "Không có quyền chỉnh sửa file.\nEmail đang sử dụng: " ++ email ++
  "\nVui lòng:\n1. Đảm bảo file được chia sẻ với email của bạn với quyền chỉnh sửa\n" ++
  "2. Hoặc đặt chế độ chia sẻ \"Anyone with the link can edit\"\n" ++
  "3. Thử xác thực lại bằng lệnh: node dist/index.js auth"

/-- The read-denied diagnostic thrown by `verifyFileAccess` (lines
552-559). -/
def readDeniedMsg (email : String) : String :=
  "Không có quyền truy cập file.\nEmail đang sử dụng: " ++ email ++
  "\nVui lòng:\n1. Đảm bảo file được chia sẻ với email của bạn\n" ++
  "2. Hoặc đặt chế độ chia sẻ \"Anyone with the link can view\"\n" ++
  "3. Thử xác thực lại bằng lệnh: node dist/index.js auth"

/-- The not-found diagnostic thrown by `verifyFileAccess` when the
backend reports a 404 (lines 564-574). -/
def notFoundMsg (email : String) : String :=
  "File không tồn tại hoặc bạn không có quyền truy cập.\nEmail đang sử dụng: " ++ email ++
  "\nVui lòng kiểm tra:\n1. URL hoặc ID file chính xác\n" ++
  "2. File đã được chia sẻ với email của bạn\n" ++
  "3. Bạn đã xác thực với đúng tài khoản Google"

/-- The JS `mimeType?.includes('spreadsheet')` test (an absent MIME
type gives `undefined`, which is falsy). -/
def mimeIncludesSpreadsheet : Option String → Bool
  | none => false
  | some m => decide ("spreadsheet".data <:+: m.data)

/-- Embedding of `verifyFileAccess` (lines 512-577).  `fetch` is the
outcome of the `drive.files.get` call (`.error code` a thrown HTTP
error); `email` is the current identity resolved by
`getCurrentUserEmail` (which never throws).  The decision policy: the
file must be a spreadsheet; with `requireEdit` the `canEdit` capability
must be `true` or the edit-denied error (embedding the email) is
thrown; otherwise read is allowed when the file is shared with type
`anyone` or `domain`, or when `canReadRevisions` is `true`.  A 404 from
the fetch is rewritten to the not-found diagnostic; other fetch errors
are rethrown. -/
def verifyFileAccess (fetch : Except Nat DriveFileData) (email : String)
    (requireEdit : Bool) : Except String Bool :=
  match fetch with
  | .error code =>
    if code = 404 then .error (notFoundMsg email) else .error (toString code)
  | .ok f =>
    if !(mimeIncludesSpreadsheet f.mimeType) then
      .error "File không phải là Google Spreadsheet"
    else
      let isPublic := f.permissions.any
        (fun p => p == PermissionType.anyone || p == PermissionType.domain)
      let hasReadAccess := f.canReadRevisions == some true
      let hasEditAccess := f.canEdit == some true
      if requireEdit && !hasEditAccess then .error (editDeniedMsg email)
      else if !isPublic && !hasReadAccess then .error (readDeniedMsg email)
      else .ok true

/- ----- Search query escaping ----- -/

/-- One character under `replace(/\\/g, "\\\\")`: a backslash becomes
two backslashes. -/
def escapeBackslashChar (c : Char) : List Char :=
  if c = '\\' then ['\\', '\\'] else [c]

/-- One character under `replace(/'/g, "\\'")`: a single quote gains a
preceding backslash. -/
def escapeQuoteChar (c : Char) : List Char :=
  if c = '\'' then ['\\', '\''] else [c]

/-- Embedding of the search query escaping (line 595): first double all
backslashes, then prefix every single quote with a backslash. -/
def escapeQuery (l : List Char) : List Char :=
  (l.flatMap escapeBackslashChar).flatMap escapeQuoteChar

/-- Embedding of the Drive search filter (line 596):
`fullText contains '<escaped>'`. -/
def formattedQuery (q : List Char) : List Char :=
  "fullText contains '".data ++ escapeQuery q ++ ['\'']

/-- Scanner state: the parity of the run of consecutive backslashes
ending immediately before the current position (`true` = odd). -/
def backslashParity : Bool → List Char → Bool
  | p, [] => p
  | p, c :: rest => backslashParity (if c = '\\' then !p else false) rest

/-- Checks that every single quote in the character list is escaped,
i.e. is immediately preceded by an odd-length run of backslashes.  `p`
is the backslash-run parity carried in from the left context. -/
def quotesEscapedFrom : Bool → List Char → Bool
  | _, [] => true
  | p, c :: rest =>
    if c = '\\' then quotesEscapedFrom (!p) rest
    else if c = '\'' then p && quotesEscapedFrom false rest
    else quotesEscapedFrom false rest

/- ----- Google Drive / Sheets tool dispatcher ----- -/

/-- A1 cell reference parse: leading uppercase letters (`[A-Z]+`) then
digits (`\d+`), returning the 0-based column, 0-based row, and the
unconsumed remainder. -/
def parseColRow (l : List Char) : Option (Int × Int × List Char) :=
  let letters := l.takeWhile (fun c => 'A' ≤ c && c ≤ 'Z')
  let rest := l.dropWhile (fun c => 'A' ≤ c && c ≤ 'Z')
  let digits := rest.takeWhile Char.isDigit
  let rest2 := rest.dropWhile Char.isDigit
  if letters.isEmpty || digits.isEmpty then none
  else
    some (columnLetterToNumber letters,
      ((digits.foldl (fun a c => a * 10 + (c.toNat - 48)) 0 : Nat) : Int) - 1, rest2)

/-- Embedding of the format_sheet range analysis (lines 916-934): the
part after `!` is matched against `([A-Z]+)(\d+):([A-Z]+)(\d+)` and,
failing that, against the single-cell shape `([A-Z]+)(\d+)` (the
source's regexes are unanchored; the anchored reading models the A1
inputs the handler is given).  Returns
`(startCol, startRow, endCol, endRow)`, all 0-based. -/
def parseRangeBounds (l : List Char) : Option (Int × Int × Int × Int) :=
  match parseColRow l with
  | none => none
  | some (c1, r1, rest) =>
    match rest with
    | ':' :: rest2 =>
      match parseColRow rest2 with
      | some (c2, r2, []) => some (c1, r1, c2, r2)
      | _ => none
    | [] => some (c1, r1, c1, r1)
    | _ => none

/-- Range qualification shared by edit_sheet and format_sheet (lines
799-807 and 892-901): prefix a truthy sheet name when the range has no
`!`, then fall back to the `Sheet1!` prefix when it still has none. -/
def qualifyRange (sheetName : Option String) (range : String) : String :=
  let r1 := match strOpt sheetName with
    | some name => if range.contains '!' then range else name ++ "!" ++ range
    | none => range
  if r1.contains '!' then r1 else "Sheet1!" ++ r1

/-- Backend-call outcomes and tool arguments for one CallTool request
against the gdrive server.  `driveList` is the outcome of
`drive.files.list` as a function of the search filter it is sent;
`extractId` is the outcome of `extractFileIdFromUrl` (which throws on
an unparseable URL); `verifyRead` and `verifyEdit` are the outcomes of
`verifyFileAccess` without and with `requireEdit`; the remaining
`Except` fields are the Sheets API calls. -/
structure GdriveEnv where
  queryArg : String
  sheetName : Option String
  rangeArg : Option String
  valuesArg : Option (List (List String))
  formattingArg : Option FormatSpec
  userEmail : String
  driveList : List Char → Except String (List String)
  extractId : Except String String
  verifyRead : Except String Bool
  verifyEdit : Except String Bool
  sheetsMeta : Except String (List SheetProperties)
  sheetIdFetch : Except String Nat
  valuesGet : Except String (List (List String))
  updateStatus : Except String Nat
  batchStatus : Except String Nat

/-- The handler-boundary catch common to the four sheet tools: a thrown
error is rendered into an `isError: true` result whose text wraps the
error message between the tool's diagnostic preamble and its checklist;
a normal result passes through. -/
def renderGuard (pre suf : String) (body : Except String ToolResult) :
    Except String ToolResult :=
  match body with
  | .ok r => .ok r
  | .error m => .ok { text := pre ++ m ++ suf, isError := true }

/-- Embedding of the search tool handler (lines 593-616).  The filter
`fullText contains '<escaped query>'` is sent to `drive.files.list`;
the file list is rendered into a success result.  The source has no
try/catch here: a backend failure propagates out of the handler. -/
def searchHandler (env : GdriveEnv) : Except String ToolResult :=
  match env.driveList (formattedQuery env.queryArg.data) with
  | .error e => .error e
  | .ok files =>
    .ok { text := "Found " ++ toString files.length ++ " files:\n" ++
            String.intercalate "\n" files,
          isError := false }

/-- Embedding of the list_sheets handler (lines 618-662): extract the
file id, verify read access, fetch the sheet properties and render
them; every thrown error is caught at the handler boundary. -/
def listSheetsHandler (env : GdriveEnv) : Except String ToolResult :=
  renderGuard "Không thể lấy danh sách sheet. Lỗi: "
    ("\nVui lòng kiểm tra:\n1. URL hoặc ID chính xác\n2. File là Google Spreadsheet\n" ++
     "3. File đã được chia sẻ với bạn")
    (do
      let _ ← env.extractId
      let _ ← env.verifyRead
      let meta ← env.sheetsMeta
      pure { text := "Danh sách các sheet:\n" ++
               String.intercalate "\n" (meta.filterMap (fun s => s.title)),
             isError := false })

/-- Embedding of the read_sheet handler (lines 664-763): extract the
file id; a verify-access failure is converted, inside an inner catch,
into an `isError: true` result carrying the email and file id; then
the range is resolved (fetching metadata only when a truthy sheet name
is given without a range) and the values are fetched and rendered.
The outer catch renders every other thrown error. -/
def readSheetHandler (env : GdriveEnv) : Except String ToolResult :=
  renderGuard "Không thể đọc sheet. Lỗi: "
    ("\nVui lòng kiểm tra:\n1. URL hoặc ID chính xác\n2. File là Google Spreadsheet\n" ++
     "3. File đã được chia sẻ với bạn\n4. Tên sheet chính xác (nếu có cung cấp)")
    (do
      let fid ← env.extractId
      match env.verifyRead with
      | .error m =>
        pure { text := m ++ "\n\nEmail đang sử dụng: " ++ env.userEmail ++
                 "\nFile ID: " ++ fid,
               isError := true }
      | .ok _ => do
        let needMeta := (strOpt env.sheetName).isSome && (strOpt env.rangeArg).isNone
        let meta ← if needMeta then env.sheetsMeta else pure []
        let _ ← resolveReadRange env.sheetName env.rangeArg meta
        let vals ← env.valuesGet
        if vals.isEmpty then
          pure { text := "Sheet không có dữ liệu", isError := false }
        else
          pure { text := "Dữ liệu sheet:\n" ++
                   String.intercalate "\n" (vals.map (String.intercalate ",")),
                 isError := false })

/-- Embedding of the edit_sheet handler (lines 765-856): extract the
file id; a verify-edit failure is converted, inside an inner catch,
into an `isError: true` result; missing values throw; the qualified
range is sent to the values update, and a non-200 status throws.  The
outer catch renders every thrown error. -/
def editSheetHandler (env : GdriveEnv) : Except String ToolResult :=
  renderGuard "Không thể cập nhật sheet. Lỗi: "
    ("\nVui lòng kiểm tra:\n1. URL hoặc ID chính xác\n2. File là Google Spreadsheet\n" ++
     "3. File đã được chia sẻ với bạn với quyền chỉnh sửa\n4. Tên sheet và range chính xác\n" ++
     "5. Dữ liệu cập nhật theo đúng định dạng mảng 2 chiều")
    (do
      let fid ← env.extractId
      match env.verifyEdit with
      | .error m =>
        pure { text := m ++ "\n\nEmail đang sử dụng: " ++ env.userEmail ++
                 "\nFile ID: " ++ fid,
               isError := true }
      | .ok _ => do
        match env.valuesArg with
        | none => throw "Dữ liệu cung cấp không hợp lệ. Cần phải là mảng 2 chiều."
        | some _ => do
          let actualRange := qualifyRange env.sheetName (env.rangeArg.getD "")
          let status ← env.updateStatus
          if status ≠ 200 then
            throw ("Cập nhật thất bại. Mã trạng thái: " ++ toString status)
          else
            pure { text := "Cập nhật thành công!\n- Sheet: " ++
                     ((actualRange.splitOn "!").getD 0 ""),
                   isError := false })

/-- Embedding of the format_sheet handler (lines 858-1053): extract the
file id; a verify-edit failure is converted, inside an inner catch,
into an `isError: true` result; a missing formatting object throws;
the sheet id fetch may throw; the range is qualified and its bounds
parsed (a parse failure throws); the assembled `userFormatting` and
its field mask are sent as the batch update, and a non-200 status
throws.  The outer catch renders every thrown error. -/
def formatSheetHandler (env : GdriveEnv) : Except String ToolResult :=
  renderGuard "Không thể cập nhật định dạng. Lỗi: "
    ("\nVui lòng kiểm tra:\n1. URL hoặc ID chính xác\n2. File là Google Spreadsheet\n" ++
     "3. File đã được chia sẻ với bạn với quyền chỉnh sửa\n4. Tên sheet và range chính xác\n" ++
     "5. Định dạng cung cấp hợp lệ")
    (do
      let fid ← env.extractId
      match env.verifyEdit with
      | .error m =>
        pure { text := m ++ "\n\nEmail đang sử dụng: " ++ env.userEmail ++
                 "\nFile ID: " ++ fid,
               isError := true }
      | .ok _ => do
        match env.formattingArg with
        | none => throw "Định dạng cung cấp không hợp lệ."
        | some fmt => do
          let _ ← env.sheetIdFetch
          let actualRange := qualifyRange env.sheetName (env.rangeArg.getD "")
          match parseRangeBounds (((actualRange.splitOn "!").getD 1 "").data) with
          | none => throw "Định dạng range không hợp lệ"
          | some _ => do
            let o := buildUserFormatting fmt
            let _ := fieldsMask o
            let status ← env.batchStatus
            if status ≠ 200 then
              throw ("Cập nhật định dạng thất bại. Mã trạng thái: " ++ toString status)
            else
              pure { text := "Cập nhật định dạng thành công!", isError := false })

/-- Embedding of the gdrive CallTool dispatcher (lines 592-1056): the
request name selects a handler; a name matching no tool throws the
protocol-level error `Tool not found` and produces no result. -/
def callTool (name : String) (env : GdriveEnv) : Except String ToolResult :=
  if name = "search" then searchHandler env
  else if name = "list_sheets" then listSheetsHandler env
  else if name = "read_sheet" then readSheetHandler env
  else if name = "edit_sheet" then editSheetHandler env
  else if name = "format_sheet" then formatSheetHandler env
  else .error "Tool not found"

/-- A concrete environment in which the Drive file listing fails with a
backend error and every other backend call succeeds. -/
def envBackendDown : GdriveEnv where
  queryArg := "hello"
  sheetName := none
  rangeArg := none
  valuesArg := none
  formattingArg := none
  userEmail := "user@example.com"
  driveList := fun _ => .error "Backend failure"
  extractId := .ok "file-1"
  verifyRead := .ok true
  verifyEdit := .ok true
  sheetsMeta := .ok []
  sheetIdFetch := .ok 1
  valuesGet := .ok []
  updateStatus := .ok 200
  batchStatus := .ok 200

/- ===================== Helper lemmas ===================== -/

theorem mysqlEncodePath_eq_intercalate (t : List Char) :
    mysqlEncodePath t = [(('/') : Char)].intercalate [[], t, SCHEMA_PATH] := by
  simp [mysqlEncodePath, List.intercalate, List.intersperse]

theorem foldl_horner (l : List Char) (a : Int) :
    l.foldl (fun result c => result * 26 + ((c.toNat : Int) - 64)) a
      = a * (26 : Int) ^ l.length + specColumnValue l := by
  induction l generalizing a with
  | nil => simp [specColumnValue]
  | cons c rest ih =>
    rw [List.foldl_cons, ih, specColumnValue]
    simp only [List.length_cons, pow_succ]
    ring

theorem char_toNat_ofNat (n : Nat) (h : n.isValidChar) : (Char.ofNat n).toNat = n := by
  simp only [Char.ofNat, h, dite_true, Char.ofNatAux, Char.toNat]
  cases h with
  | inl h1 =>
    simp [UInt32.ofNat', UInt32.toNat, BitVec.ofNat, Fin.ofNat',
      Nat.mod_eq_of_lt (by omega : n < 4294967296)]
  | inr h2 =>
    simp [UInt32.ofNat', UInt32.toNat, BitVec.ofNat, Fin.ofNat',
      Nat.mod_eq_of_lt (by omega : n < 4294967296)]

theorem string_append_assoc (a b c : String) : a ++ b ++ c = a ++ (b ++ c) := by
  cases a
  cases b
  cases c
  show String.append (String.append _ _) _ = String.append _ (String.append _ _)
  simp [String.append]

theorem renderGuard_isOk (pre suf : String) (body : Except String ToolResult) :
    exceptIsOk (renderGuard pre suf body) = true := by
  cases body <;> rfl

theorem escapeQuery_cons (c : Char) (l : List Char) :
    escapeQuery (c :: l) = (escapeBackslashChar c).flatMap escapeQuoteChar ++ escapeQuery l := by
  simp [escapeQuery, List.flatMap_cons, List.flatMap_append]

theorem quotesEscapedFrom_append (p : Bool) (a b : List Char) :
    quotesEscapedFrom p (a ++ b)
      = (quotesEscapedFrom p a && quotesEscapedFrom (backslashParity p a) b) := by
  induction a generalizing p with
  | nil => simp [quotesEscapedFrom, backslashParity]
  | cons c rest ih =>
    by_cases hb : c = '\\'
    · simp [quotesEscapedFrom, backslashParity, hb, ih]
    · by_cases hq : c = '\''
      · simp [quotesEscapedFrom, backslashParity, hb, hq, ih, Bool.and_assoc]
      · simp [quotesEscapedFrom, backslashParity, hb, hq, ih]

theorem escapeQuery_invariant (l : List Char) :
    quotesEscapedFrom false (escapeQuery l) = true ∧
    backslashParity false (escapeQuery l) = false := by
  induction l with
  | nil => constructor <;> rfl
  | cons c rest ih =>
    rw [escapeQuery_cons]
    by_cases hb : c = '\\'
    · subst hb
      rw [show (escapeBackslashChar '\\').flatMap escapeQuoteChar = ['\\', '\\'] from rfl]
      constructor
      · rw [quotesEscapedFrom_append]
        simp [quotesEscapedFrom, backslashParity, ih.1]
      · simpa [backslashParity] using ih.2
    · by_cases hq : c = '\''
      · subst hq
        rw [show (escapeBackslashChar '\'').flatMap escapeQuoteChar = ['\\', '\''] from rfl]
        constructor
        · rw [quotesEscapedFrom_append]
          simp [quotesEscapedFrom, backslashParity, ih.1]
        · simpa [backslashParity] using ih.2
      · rw [show (escapeBackslashChar c).flatMap escapeQuoteChar = [c] by
            simp [escapeBackslashChar, escapeQuoteChar, hb, hq]]
        constructor
        · rw [quotesEscapedFrom_append]
          simp [quotesEscapedFrom, backslashParity, hb, hq, ih.1]
        · simpa [backslashParity, hb] using ih.2

/- ===================== Claim theorems ===================== -/

/-- Claim C1: for every SQL query, after the `query` tool handler
returns (whether the query succeeded or raised), the connection acquired
for the invocation has been released exactly once and a rollback has
been attempted exactly once; a rollback failure is recorded as a warning
and the handler outcome is independent of the rollback outcome and
equal to the body's own result or error. -/
theorem C1_query_guard_release_rollback (beginR : Except String Unit)
    (queryR : Except String String) (rollbackR rollbackR' : Except String Unit) :
    ((queryToolHandler beginR queryR rollbackR).2.count .release = 1) ∧
    ((queryToolHandler beginR queryR rollbackR).2.count .rollback = 1) ∧
    ((queryToolHandler beginR queryR rollbackR).1
      = (queryToolHandler beginR queryR rollbackR').1) ∧
    ((DbEvent.warnRollback ∈ (queryToolHandler beginR queryR rollbackR).2)
      ↔ exceptIsOk rollbackR = false) ∧
    ((queryToolHandler beginR queryR rollbackR).1
      = match beginR with
        | .error e => .error e
        | .ok _ =>
          match queryR with
          | .error e => .error e
          | .ok rows => .ok { text := rows, isError := false }) := by
  cases beginR <;> cases queryR <;> cases rollbackR <;> cases rollbackR' <;>
    simp [queryToolHandler, exceptIsOk, List.count_cons, List.count_append]

/-- Claim C3: for every valid table name (nonempty, no slash), decoding
the resource URI pathname produced by encoding that table with the view
literal `schema` recovers the same table name and view, and decoding
fails with "Invalid resource URI" exactly when the trailing path segment
is not the literal `schema`. -/
theorem C3_uri_roundtrip :
    (∀ t : List Char, t ≠ [] → ('/') ∉ t →
        mysqlDecodePath (mysqlEncodePath t) = .ok (t, SCHEMA_PATH)) ∧
    (∀ p : List Char,
        exceptIsOk (mysqlDecodePath p) = false ↔ (p.splitOn '/').getLastD [] ≠ SCHEMA_PATH) := by
  constructor
  · intro t _ hslash
    have hx : ∀ l ∈ [([] : List Char), t, SCHEMA_PATH], ('/') ∉ l := by
      intro l hl
      simp only [List.mem_cons, List.not_mem_nil, or_false] at hl
      rcases hl with rfl | rfl | rfl
      · simp
      · exact hslash
      · decide
    have hsplit : (mysqlEncodePath t).splitOn '/' = [[], t, SCHEMA_PATH] := by
      rw [mysqlEncodePath_eq_intercalate]
      exact List.splitOn_intercalate _ '/' hx (by simp)
    simp [mysqlDecodePath, hsplit, List.dropLast]
  · intro p
    unfold mysqlDecodePath
    by_cases h : (p.splitOn '/').getLastD [] = SCHEMA_PATH <;>
      simp only [List.getLastD_eq_getLast?] at h <;> simp [h, exceptIsOk]

/-- Claim C3 witness: a concrete valid table name round-trips, and a
concrete pathname with trailing segment other than `schema` fails. -/
theorem C3_uri_roundtrip_witness :
    mysqlDecodePath (mysqlEncodePath "users".data) = .ok ("users".data, SCHEMA_PATH) ∧
    (exceptIsOk (mysqlDecodePath "/x/y".data) = false
      ↔ (("/x/y".data).splitOn '/').getLastD [] ≠ SCHEMA_PATH) :=
  ⟨C3_uri_roundtrip.1 "users".data (by decide) (by decide), C3_uri_roundtrip.2 "/x/y".data⟩

/-- Claim C4: `columnLetterToNumber` interprets a letter string as a
base-26 positional number with no zero digit and is correct for
multi-letter columns: `A` maps to 0, `Z` to 25, `AA` to 26, `AZ` to 51,
and every non-empty string of uppercase letters maps to its 0-based
column index. -/
theorem C4_columnLetterToNumber_base26 :
    (columnLetterToNumber "A".data = 0 ∧ columnLetterToNumber "Z".data = 25 ∧
     columnLetterToNumber "AA".data = 26 ∧ columnLetterToNumber "AZ".data = 51) ∧
    (∀ l : List Char, l ≠ [] → (∀ c ∈ l, 'A' ≤ c ∧ c ≤ 'Z') →
        columnLetterToNumber l = specColumnIndex l) := by
  refine ⟨⟨by decide, by decide, by decide, by decide⟩, ?_⟩
  intro l _ _
  unfold columnLetterToNumber specColumnIndex
  rw [foldl_horner]
  ring

/-- Claim C4 witness: the general base-26 statement instantiated at the
two-letter column `AB`. -/
theorem C4_columnLetterToNumber_base26_witness :
    columnLetterToNumber "AB".data = specColumnIndex "AB".data :=
  C4_columnLetterToNumber_base26.2 "AB".data (by decide) (by decide)

/-- Claim C5: the index-to-column-letter conversion used by the
read_sheet full-used-range resolution is inverted by
`columnLetterToNumber` for every column index from 0 to 701. -/
theorem C5_indexToLetter_roundtrip (i : Nat) (h : i ≤ 701) :
    columnLetterToNumber (readSheetIndexToLetter i) = i := by
  have hv : (64 + (i + 1)).isValidChar := by
    left
    omega
  unfold columnLetterToNumber readSheetIndexToLetter
  rw [List.foldl_cons, List.foldl_nil, char_toNat_ofNat _ hv]
  push_cast
  ring

/-- Claim C5 witness: the round trip at the largest index in range. -/
theorem C5_indexToLetter_roundtrip_witness :
    columnLetterToNumber (readSheetIndexToLetter 701) = 701 :=
  C5_indexToLetter_roundtrip 701 (by decide)

/-- Claim C6: when read_sheet is called with a (nonempty) sheet name and
no explicit range, and the sheet's metadata reports rowCount 10 and
columnCount 3, the resolved range addresses exactly rows 1..10 and
columns A..C of that sheet. -/
theorem C6_read_sheet_default_range (name : String) (h : name ≠ "") :
    resolveReadRange (some name) none
      [{ title := some name,
         gridProperties := some { rowCount := some 10, columnCount := some 3 } }]
      = .ok (name ++ "!A1:C10") := by
  unfold resolveReadRange
  simp only [strOpt, if_neg h]
  simp [jsOrNat, List.find?]
  rw [show (Char.ofNat (64 + 3)).toString = "C" from rfl,
    show (toString (10 : Nat)) = "10" from rfl,
    string_append_assoc, string_append_assoc]
  rfl

/-- Claim C6 witness: the default range at the concrete sheet name
`Data`. -/
theorem C6_read_sheet_default_range_witness :
    resolveReadRange (some "Data") none
      [{ title := some "Data",
         gridProperties := some { rowCount := some 10, columnCount := some 3 } }]
      = .ok "Data!A1:C10" := by
  rw [show ("Data!A1:C10" : String) = "Data" ++ "!A1:C10" from rfl]
  exact C6_read_sheet_default_range "Data" (by decide)

/-- The format_sheet `formatting` argument of claim C7:
`{ bold: true, backgroundColor: "#ff0000" }`. -/
def fmtBoldRed : FormatSpec :=
  ⟨some "#ff0000", none, none, some true, none, none, none⟩

/-- Claim C7: for `formatting = {bold: true, backgroundColor:
"#ff0000"}` the assembled native format object has exactly the top-level
keys `backgroundColor` and `textFormat`, the field mask names exactly
those two, and the background color is red 1.0, green 0.0, blue 0.0;
in general the field mask names exactly the top-level keys present in
the assembled object, never more and never less. -/
theorem C7_format_mask_exact :
    (formatObjectKeys (buildUserFormatting fmtBoldRed)
      = ["backgroundColor", "textFormat"]) ∧
    (fieldsMask (buildUserFormatting fmtBoldRed)
      = "userEnteredFormat(backgroundColor,textFormat)") ∧
    ((buildUserFormatting fmtBoldRed).backgroundColor = some ⟨1, 0, 0, 1⟩) ∧
    (∀ o : CellFormatNative,
      (("backgroundColor" ∈ formatObjectKeys o) ↔ o.backgroundColor.isSome = true) ∧
      (("textFormat" ∈ formatObjectKeys o) ↔ o.textFormat.isSome = true) ∧
      (("horizontalAlignment" ∈ formatObjectKeys o) ↔ o.horizontalAlignment.isSome = true) ∧
      (("verticalAlignment" ∈ formatObjectKeys o) ↔ o.verticalAlignment.isSome = true)) := by
  have hkeys : formatObjectKeys (buildUserFormatting fmtBoldRed)
      = ["backgroundColor", "textFormat"] := by
    simp [buildUserFormatting, formatObjectKeys, fmtBoldRed, truthyS, truthyZ]
  have hc : hexToRgb "#ff0000" = ⟨255, 0, 0⟩ := by decide
  refine ⟨hkeys, ?_, ?_, ?_⟩
  · rw [fieldsMask, hkeys]
    rfl
  · simp [buildUserFormatting, fmtBoldRed, truthyS, hc, toColorRgba]
  · intro o
    rcases o with ⟨bg, tf, ha, va⟩
    cases bg <;> cases tf <;> cases ha <;> cases va <;>
      simp [formatObjectKeys]

/-- Claim C8 counterexample: the malformed color `zzz` is not
well-formed hex, yet the translation does not fail: `hexToRgb` returns
the color black and the assembled format carries it, contradicting the
claim that a malformed color fails with an InvalidColor error. -/
theorem C8_counterexample :
    wellFormedHex "zzz" = false ∧ hexToRgb "zzz" = ⟨0, 0, 0⟩ ∧
    (buildUserFormatting ⟨some "zzz", none, none, none, none, none, none⟩).backgroundColor
      = some ⟨0, 0, 0, 1⟩ := by
  have hz : hexToRgb "zzz" = ⟨0, 0, 0⟩ := by decide
  refine ⟨by decide, hz, ?_⟩
  simp [buildUserFormatting, truthyS, hz, toColorRgba]

/-- Claim C8 (amended): for every color string that is not a
well-formed hex literal for the source's regex, `hexToRgb` silently
returns black `{r: 0, g: 0, b: 0}`; no error is raised. -/
theorem C8_malformed_hex_black (s : String) (h : wellFormedHex s = false) :
    hexToRgb s = ⟨0, 0, 0⟩ := by
  unfold wellFormedHex at h
  unfold hexToRgb
  cases hm : hexMatch s.data
  · rfl
  · rw [hm] at h
    simp at h

/-- Claim C8 witness: the amended statement at the malformed color
`#12345`. -/
theorem C8_malformed_hex_black_witness :
    wellFormedHex "#12345" = false ∧ hexToRgb "#12345" = ⟨0, 0, 0⟩ :=
  ⟨by decide, C8_malformed_hex_black "#12345" (by decide)⟩

/-- Claim C9: the access verification follows the decision policy: for
a spreadsheet whose capabilities report `canEdit: false`, verification
with `requireEdit` fails with the edit-denied error, which embeds the
current identity's email; for a spreadsheet shared with permission type
`anyone` or `domain`, verification without `requireEdit` succeeds even
when `canEdit` and `canReadRevisions` are false. -/
theorem C9_access_policy :
    (∀ (f : DriveFileData) (email : String),
        mimeIncludesSpreadsheet f.mimeType = true →
        f.canEdit = some false →
        verifyFileAccess (.ok f) email true = .error (editDeniedMsg email) ∧
        (∃ pre suf : String, editDeniedMsg email = pre ++ (email ++ suf))) ∧
    (∀ (f : DriveFileData) (email : String),
        mimeIncludesSpreadsheet f.mimeType = true →
        (PermissionType.anyone ∈ f.permissions ∨ PermissionType.domain ∈ f.permissions) →
        verifyFileAccess (.ok f) email false = .ok true) := by
  constructor
  · intro f email hm he
    constructor
    · unfold verifyFileAccess
      simp [hm, he]
    · refine ⟨"Không có quyền chỉnh sửa file.\nEmail đang sử dụng: ",
        ("\nVui lòng:\n1. Đảm bảo file được chia sẻ với email của bạn với quyền chỉnh sửa\n" ++
         "2. Hoặc đặt chế độ chia sẻ \"Anyone with the link can edit\"\n" ++
         "3. Thử xác thực lại bằng lệnh: node dist/index.js auth"), ?_⟩
      simp only [editDeniedMsg, string_append_assoc]
  · intro f email hm hp
    have hpub : f.permissions.any
        (fun p => p == PermissionType.anyone || p == PermissionType.domain) = true := by
      rcases hp with h | h
      · exact List.any_eq_true.mpr ⟨_, h, by simp⟩
      · exact List.any_eq_true.mpr ⟨_, h, by simp⟩
    unfold verifyFileAccess
    simp [hm, hpub]

/-- A private spreadsheet with no edit or read-revisions capability and
no sharing entries. -/
def fileNoEdit : DriveFileData :=
  ⟨some "application/vnd.google-apps.spreadsheet", some false, some false, []⟩

/-- A publicly shared (`anyone`) spreadsheet with no edit or
read-revisions capability. -/
def filePublic : DriveFileData :=
  ⟨some "application/vnd.google-apps.spreadsheet", some false, some false,
   [PermissionType.anyone]⟩

/-- Claim C9 witness: the policy at two concrete files and a concrete
identity. -/
theorem C9_access_policy_witness :
    (verifyFileAccess (.ok fileNoEdit) "me@example.com" true
        = .error (editDeniedMsg "me@example.com") ∧
     (∃ pre suf : String,
        editDeniedMsg "me@example.com" = pre ++ ("me@example.com" ++ suf))) ∧
    verifyFileAccess (.ok filePublic) "me@example.com" false = .ok true :=
  ⟨C9_access_policy.1 fileNoEdit "me@example.com" (by decide) rfl,
   C9_access_policy.2 filePublic "me@example.com" (by decide) (Or.inl (by decide))⟩

/-- Claim C10: the Drive search filter is exactly
`fullText contains '<q'>'` where `q'` doubles every backslash and then
prefixes every single quote with a backslash, and in the escaped query
every single quote is escaped (preceded by an odd-length backslash run);
moreover the escaped query ends in an even-length backslash run, so the
closing quote of the filter literal is not escaped away. -/
theorem C10_search_filter_escaped (q : List Char) :
    formattedQuery q = "fullText contains '".data ++ escapeQuery q ++ ['\''] ∧
    quotesEscapedFrom false (escapeQuery q) = true ∧
    backslashParity false (escapeQuery q) = false :=
  ⟨rfl, (escapeQuery_invariant q).1, (escapeQuery_invariant q).2⟩

/-- Whether the handler outcome is a returned (non-thrown) ToolCallResult
carrying `isError = true`: the rendering of a caught handler-level
failure. -/
def isHandledError : Except String ToolResult → Bool
  | .ok r => r.isError
  | .error _ => false

/-- A concrete environment in which `extractFileIdFromUrl` throws (an
invalid object reference) and every backend call succeeds. -/
def envExtractFail : GdriveEnv where
  queryArg := "q"
  sheetName := none
  rangeArg := some "A1:B2"
  valuesArg := some [["x"]]
  formattingArg := some ⟨none, none, none, some true, none, none, none⟩
  userEmail := "user@example.com"
  driveList := fun _ => .ok []
  extractId := .error "URL không hợp lệ"
  verifyRead := .ok true
  verifyEdit := .ok true
  sheetsMeta := .ok []
  sheetIdFetch := .ok 1
  valuesGet := .ok []
  updateStatus := .ok 200
  batchStatus := .ok 200

theorem except_bind_ok (a : α) (f : α → Except ε β) :
    (Except.ok a >>= f) = f a := rfl

theorem except_bind_error (e : ε) (f : α → Except ε β) :
    ((Except.error e : Except ε α) >>= f) = .error e := rfl

theorem except_pure_eq (a : α) : (pure a : Except ε α) = .ok a := rfl

theorem except_throw_eq (e : ε) : (throw e : Except ε α) = .error e := rfl

theorem listSheets_isError_iff (env : GdriveEnv) :
    isHandledError (listSheetsHandler env) = false ↔
      exceptIsOk env.extractId = true ∧ exceptIsOk env.verifyRead = true ∧
      exceptIsOk env.sheetsMeta = true := by
  obtain ⟨qa, sn, ra, va, fa, ue, dl, ei, vr, ve, sm, sif, vg, us, bs⟩ := env
  cases ei <;> cases vr <;> cases sm <;>
    simp [listSheetsHandler, renderGuard, isHandledError, exceptIsOk,
      except_bind_ok, except_bind_error, except_pure_eq]

theorem readSheet_isError_iff (env : GdriveEnv) :
    isHandledError (readSheetHandler env) = false ↔
      exceptIsOk env.extractId = true ∧ exceptIsOk env.verifyRead = true ∧
      (∃ meta, (if (strOpt env.sheetName).isSome && (strOpt env.rangeArg).isNone
          then env.sheetsMeta else Except.ok []) = .ok meta ∧
        exceptIsOk (resolveReadRange env.sheetName env.rangeArg meta) = true) ∧
      exceptIsOk env.valuesGet = true := by
  obtain ⟨qa, sn, ra, va, fa, ue, dl, ei, vr, ve, sm, sif, vg, us, bs⟩ := env
  cases ei with
  | error e =>
    simp [readSheetHandler, renderGuard, isHandledError, exceptIsOk, except_bind_error]
  | ok fid =>
    cases vr with
    | error m =>
      simp [readSheetHandler, renderGuard, isHandledError, exceptIsOk,
        except_bind_ok, except_bind_error, except_pure_eq]
    | ok b =>
      cases hn : (strOpt sn).isSome && (strOpt ra).isNone with
      | false =>
        cases hres : resolveReadRange sn ra [] with
        | error e2 =>
          cases vg <;>
            simp [readSheetHandler, renderGuard, isHandledError, exceptIsOk,
              except_bind_ok, except_bind_error, except_pure_eq, hn, hres]
        | ok rr =>
          rcases vg with e3 | vals
          · simp [readSheetHandler, renderGuard, isHandledError, exceptIsOk,
              except_bind_ok, except_bind_error, except_pure_eq, hn, hres]
          · cases vals <;>
              simp [readSheetHandler, renderGuard, isHandledError, exceptIsOk,
                except_bind_ok, except_bind_error, except_pure_eq, hn, hres]
      | true =>
        cases sm with
        | error e2 =>
          simp [readSheetHandler, renderGuard, isHandledError, exceptIsOk,
            except_bind_ok, except_bind_error, except_pure_eq, hn]
        | ok meta =>
          cases hres : resolveReadRange sn ra meta with
          | error e2 =>
            simp [readSheetHandler, renderGuard, isHandledError, exceptIsOk,
              except_bind_ok, except_bind_error, except_pure_eq, hn, hres]
          | ok rr =>
            rcases vg with e3 | vals
            · simp [readSheetHandler, renderGuard, isHandledError, exceptIsOk,
                except_bind_ok, except_bind_error, except_pure_eq, hn, hres]
            · cases vals <;>
                simp [readSheetHandler, renderGuard, isHandledError, exceptIsOk,
                  except_bind_ok, except_bind_error, except_pure_eq, hn, hres]

theorem editSheet_isError_iff (env : GdriveEnv) :
    isHandledError (editSheetHandler env) = false ↔
      exceptIsOk env.extractId = true ∧ exceptIsOk env.verifyEdit = true ∧
      env.valuesArg.isSome = true ∧ env.updateStatus = .ok 200 := by
  obtain ⟨qa, sn, ra, va, fa, ue, dl, ei, vr, ve, sm, sif, vg, us, bs⟩ := env
  cases ei with
  | error e =>
    simp [editSheetHandler, renderGuard, isHandledError, exceptIsOk, except_bind_error]
  | ok fid =>
    cases ve with
    | error m =>
      simp [editSheetHandler, renderGuard, isHandledError, exceptIsOk,
        except_bind_ok, except_bind_error, except_pure_eq]
    | ok b =>
      cases va with
      | none =>
        simp [editSheetHandler, renderGuard, isHandledError, exceptIsOk,
          except_bind_ok, except_bind_error, except_pure_eq, except_throw_eq]
      | some v =>
        rcases us with e2 | st
        · simp [editSheetHandler, renderGuard, isHandledError, exceptIsOk,
            except_bind_ok, except_bind_error, except_pure_eq, except_throw_eq]
        · by_cases hs : st = 200 <;>
            simp [editSheetHandler, renderGuard, isHandledError, exceptIsOk,
              except_bind_ok, except_bind_error, except_pure_eq, except_throw_eq, hs]

theorem formatSheet_isError_iff (env : GdriveEnv) :
    isHandledError (formatSheetHandler env) = false ↔
      exceptIsOk env.extractId = true ∧ exceptIsOk env.verifyEdit = true ∧
      env.formattingArg.isSome = true ∧ exceptIsOk env.sheetIdFetch = true ∧
      (parseRangeBounds
        ((((qualifyRange env.sheetName (env.rangeArg.getD "")).splitOn "!").getD 1 "").data)).isSome
        = true ∧
      env.batchStatus = .ok 200 := by
  obtain ⟨qa, sn, ra, va, fa, ue, dl, ei, vr, ve, sm, sif, vg, us, bs⟩ := env
  cases ei with
  | error e =>
    simp [formatSheetHandler, renderGuard, isHandledError, exceptIsOk, except_bind_error]
  | ok fid =>
    cases ve with
    | error m =>
      simp [formatSheetHandler, renderGuard, isHandledError, exceptIsOk,
        except_bind_ok, except_bind_error, except_pure_eq]
    | ok b =>
      cases fa with
      | none =>
        simp [formatSheetHandler, renderGuard, isHandledError, exceptIsOk,
          except_bind_ok, except_bind_error, except_pure_eq, except_throw_eq]
      | some fmt =>
        rcases sif with e2 | sid
        · simp [formatSheetHandler, renderGuard, isHandledError, exceptIsOk,
            except_bind_ok, except_bind_error, except_pure_eq, except_throw_eq]
        · cases hp : parseRangeBounds
              ((((qualifyRange sn (ra.getD "")).splitOn "!").getD 1 "").data) with
          | none =>
            simp only [List.getD_eq_getElem?_getD] at hp
            simp [formatSheetHandler, renderGuard, isHandledError, exceptIsOk,
              except_bind_ok, except_bind_error, except_pure_eq, except_throw_eq, hp]
          | some bounds =>
            simp only [List.getD_eq_getElem?_getD] at hp
            rcases bs with e3 | st
            · simp [formatSheetHandler, renderGuard, isHandledError, exceptIsOk,
                except_bind_ok, except_bind_error, except_pure_eq, except_throw_eq, hp]
            · by_cases hs : st = 200 <;>
                simp [formatSheetHandler, renderGuard, isHandledError, exceptIsOk,
                  except_bind_ok, except_bind_error, except_pure_eq, except_throw_eq, hp, hs]

/-- Claim C2 counterexample: `search` is a registered tool, yet with a
failing Drive backend its handler-level backend failure propagates out
of the handler as a thrown error instead of being returned as an
`isError: true` ToolCallResult. -/
theorem C2_counterexample :
    callTool "search" envBackendDown = .error "Backend failure" := rfl

/-- Claim C2 (amended): a CallTool request whose name matches no
registered tool fails with the thrown protocol-level error
`Tool not found` and produces no ToolCallResult; each of the four sheet
tools always returns a ToolCallResult (never throws), and that result
has `isError = false` exactly when every handler-level step succeeded —
so every handler-level failure (invalid object reference, access
denial, backend failure, missing values or formatting, invalid range,
non-200 status) is caught at the handler boundary and returned as an
`isError: true` ToolCallResult; the `search` handler, however, has no
such boundary and propagates a backend failure as a thrown error. -/
theorem C2_dispatch_behavior :
    (∀ (env : GdriveEnv) (name : String),
        name ∉ (["search", "list_sheets", "read_sheet", "edit_sheet",
                 "format_sheet"] : List String) →
        callTool name env = .error "Tool not found") ∧
    (∀ env : GdriveEnv,
        callTool "list_sheets" env = listSheetsHandler env ∧
        callTool "read_sheet" env = readSheetHandler env ∧
        callTool "edit_sheet" env = editSheetHandler env ∧
        callTool "format_sheet" env = formatSheetHandler env) ∧
    (∀ (env : GdriveEnv) (e : String),
        env.driveList (formattedQuery env.queryArg.data) = .error e →
        callTool "search" env = .error e) ∧
    (∀ env : GdriveEnv,
        exceptIsOk (listSheetsHandler env) = true ∧
        (isHandledError (listSheetsHandler env) = false ↔
          exceptIsOk env.extractId = true ∧ exceptIsOk env.verifyRead = true ∧
          exceptIsOk env.sheetsMeta = true)) ∧
    (∀ env : GdriveEnv,
        exceptIsOk (readSheetHandler env) = true ∧
        (isHandledError (readSheetHandler env) = false ↔
          exceptIsOk env.extractId = true ∧ exceptIsOk env.verifyRead = true ∧
          (∃ meta, (if (strOpt env.sheetName).isSome && (strOpt env.rangeArg).isNone
              then env.sheetsMeta else Except.ok []) = .ok meta ∧
            exceptIsOk (resolveReadRange env.sheetName env.rangeArg meta) = true) ∧
          exceptIsOk env.valuesGet = true)) ∧
    (∀ env : GdriveEnv,
        exceptIsOk (editSheetHandler env) = true ∧
        (isHandledError (editSheetHandler env) = false ↔
          exceptIsOk env.extractId = true ∧ exceptIsOk env.verifyEdit = true ∧
          env.valuesArg.isSome = true ∧ env.updateStatus = .ok 200)) ∧
    (∀ env : GdriveEnv,
        exceptIsOk (formatSheetHandler env) = true ∧
        (isHandledError (formatSheetHandler env) = false ↔
          exceptIsOk env.extractId = true ∧ exceptIsOk env.verifyEdit = true ∧
          env.formattingArg.isSome = true ∧ exceptIsOk env.sheetIdFetch = true ∧
          (parseRangeBounds
            ((((qualifyRange env.sheetName (env.rangeArg.getD "")).splitOn "!").getD 1
              "").data)).isSome = true ∧
          env.batchStatus = .ok 200)) := by
  refine ⟨?_, ?_, ?_, ?_, ?_, ?_, ?_⟩
  · intro env name h
    simp only [List.mem_cons, List.not_mem_nil, or_false, not_or] at h
    obtain ⟨h1, h2, h3, h4, h5⟩ := h
    simp [callTool, h1, h2, h3, h4, h5]
  · intro env
    exact ⟨rfl, rfl, rfl, rfl⟩
  · intro env e h
    simp [callTool, searchHandler, h]
  · intro env
    refine ⟨?_, listSheets_isError_iff env⟩
    unfold listSheetsHandler
    exact renderGuard_isOk _ _ _
  · intro env
    refine ⟨?_, readSheet_isError_iff env⟩
    unfold readSheetHandler
    exact renderGuard_isOk _ _ _
  · intro env
    refine ⟨?_, editSheet_isError_iff env⟩
    unfold editSheetHandler
    exact renderGuard_isOk _ _ _
  · intro env
    refine ⟨?_, formatSheet_isError_iff env⟩
    unfold formatSheetHandler
    exact renderGuard_isOk _ _ _

/-- Claim C2 witness: the amended statement at the concrete unknown
name `query`, the concrete failing-backend environment (search
propagates the thrown backend error), and the concrete
invalid-object-reference environment (every sheet tool returns an
`isError: true` ToolCallResult). -/
theorem C2_dispatch_behavior_witness :
    ("query" ∉ (["search", "list_sheets", "read_sheet", "edit_sheet",
                 "format_sheet"] : List String)) ∧
    callTool "query" envBackendDown = .error "Tool not found" ∧
    envBackendDown.driveList (formattedQuery envBackendDown.queryArg.data)
      = .error "Backend failure" ∧
    callTool "search" envBackendDown = .error "Backend failure" ∧
    exceptIsOk (listSheetsHandler envExtractFail) = true ∧
    isHandledError (listSheetsHandler envExtractFail) = true ∧
    isHandledError (readSheetHandler envExtractFail) = true ∧
    isHandledError (editSheetHandler envExtractFail) = true ∧
    isHandledError (formatSheetHandler envExtractFail) = true :=
  ⟨by decide, C2_dispatch_behavior.1 envBackendDown "query" (by decide),
   rfl,
   C2_dispatch_behavior.2.2.1 envBackendDown "Backend failure" rfl,
   (C2_dispatch_behavior.2.2.2.1 envExtractFail).1,
   by decide, by decide, by decide, by decide⟩
